import Mathlib

/-!
Verification of the TPSR service-request dashboard (`src/app.py`) against its
natural-language specification.

The embedding models the ingestion/normalization pipeline of `load_data`, the
sidebar filter expression `df_filtered`, and the monthly cost aggregation
`cost_time`.  Spreadsheet cells are modelled by `CellValue` (the value kinds
openpyxl hands back: strings, ints, floats, booleans, datetimes); a raw row is
a list of optional cells indexed by 1-based column number; Python floats are
modelled by rationals (no claim depends on rounding).
-/

namespace TPSR

/-- A calendar date, standing for a Python `datetime` at midnight (the time
component plays no role in any claim: `timedelta.days` of a difference of two
midnight datetimes is exactly the difference of their ordinals). -/
structure Dt where
  year : Int
  month : Nat
  day : Nat
deriving DecidableEq

/-- Proleptic-Gregorian leap-year rule, as in Python's `datetime`. -/
def isLeap (y : Int) : Bool := y % 4 == 0 && (y % 100 != 0 || y % 400 == 0)

def monthLengths (leap : Bool) : List Nat :=
  [31, if leap then 29 else 28, 31, 30, 31, 30, 31, 31, 30, 31, 30, 31]

def daysBeforeMonth (leap : Bool) (m : Nat) : Nat :=
  ((monthLengths leap).take (m - 1)).sum

/-- `date.toordinal` of Python: day number in the proleptic Gregorian
calendar, with 0001-01-01 as day 1. -/
def toOrdinal (d : Dt) : Int :=
  365 * (d.year - 1) + (d.year - 1).fdiv 4 - (d.year - 1).fdiv 100
    + (d.year - 1).fdiv 400 + (daysBeforeMonth (isLeap d.year) d.month : Int) + (d.day : Int)

/-- The epoch `datetime(1899, 12, 30)` used by `excel_date_to_int`. -/
def excelEpoch : Dt := ⟨1899, 12, 30⟩

/-- A non-empty spreadsheet cell value as openpyxl yields it. -/
inductive CellValue where
  | str (s : String)
  | int (n : Int)
  | float (q : ℚ)
  | bool (b : Bool)
  | date (d : Dt)
deriving DecidableEq

/-- Python truthiness of a cell value (`""`, `0`, `0.0`, `False` are falsy;
every `datetime` is truthy). -/
def isTruthy : CellValue → Bool
  | .str s => decide (s ≠ "")
  | .int n => decide (n ≠ 0)
  | .float q => decide (q ≠ 0)
  | .bool b => b
  | .date _ => true

/-- Python `str()` of a cell value.  Only the string case is exercised by the
claims; for the other kinds any rendering that is not `"Yes"`/`"No"` after
strip+capitalize behaves identically downstream (the tri-state guard in
`load_data` maps everything else to `"Unknown"`). -/
def pyStr : CellValue → String
  | .str s => s
  | .int n => toString n
  | .float q => toString q
  | .bool b => if b then "True" else "False"
  | .date d => toString d.year ++ "-" ++ toString d.month ++ "-" ++ toString d.day

/-- Python `str.capitalize`: first character upper-cased, the rest
lower-cased (ASCII suffices for the flag values involved). -/
def pyCapitalize (s : String) : String :=
  match s.toList with
  | [] => ""
  | c :: cs => String.mk (c.toUpper :: cs.map Char.toLower)

/-- Python `str.strip` with no argument: drop leading and trailing
whitespace. -/
def pyStrip (s : String) : String :=
  String.mk (((s.toList.dropWhile Char.isWhitespace).reverse.dropWhile
    Char.isWhitespace).reverse)

/-- A raw spreadsheet row: entry `i` of the list is the cell of 1-based
column `i + 1`, `none` standing for an empty (`None`-valued) or absent cell. -/
abbrev Row := List (Option CellValue)

/-- `vals.get(c)` of `load_data`: the cell of column `c`, with empty cells
and columns beyond the row's extent both absent (the `vals` dict is built
only from cells whose value is not `None`). -/
def getCell (r : Row) (c : Nat) : Option CellValue := (r.get? (c - 1)).join

/-- `excel_date_to_int` (app.py line 76): a `datetime` becomes the integer
day count since 1899-12-30; anything else passes through unchanged. -/
def excel_date_to_int : CellValue → CellValue
  | .date d => .int (toOrdinal d - toOrdinal excelEpoch)
  | v => v

/-- `float(v)` guarded by `isinstance(v, (int, float))`: numbers (booleans
included, being Python ints) convert, everything else is rejected. -/
def toFloatIfNum : CellValue → Option ℚ
  | .int n => some (n : ℚ)
  | .float q => some q
  | .bool b => some (if b then 1 else 0)
  | _ => none

/-- Normalization of one service-unit cell (app.py lines 95-97):
`raw = excel_date_to_int(vals.get(col)); float(raw) if isinstance(raw, (int, float)) else 0.0`. -/
def svcOfCell (o : Option CellValue) : ℚ :=
  match (o.map excel_date_to_int).bind toFloatIfNum with
  | some q => q
  | none => 0

/-- Normalization of the cost cell (app.py lines 91 and 108):
`cost = vals.get(4, 0) or 0; float(cost) if isinstance(cost, (int, float)) else 0.0`. -/
def costOfCell (o : Option CellValue) : ℚ :=
  let c0 := o.getD (.int 0)
  let c := if isTruthy c0 then c0 else .int 0
  match toFloatIfNum c with
  | some q => q
  | none => 0

/-- Normalization of the status cell (app.py line 107): `status or "Unknown"`. -/
def statusOfCell (o : Option CellValue) : CellValue :=
  match o with
  | some v => if isTruthy v then v else .str "Unknown"
  | none => .str "Unknown"

/-- app.py line 100:
`cancer_val = str(cancer_raw).strip().capitalize() if cancer_raw else "Unknown"`. -/
def cancerNorm (raw : CellValue) : String :=
  if isTruthy raw then pyCapitalize (pyStrip (pyStr raw)) else "Unknown"

/-- app.py lines 101-102: `if cancer_val not in ("Yes", "No"): cancer_val = "Unknown"`. -/
def cancerGuard (v : String) : String :=
  if v == "Yes" || v == "No" then v else "Unknown"

/-- Normalization of the cancer flag cell (app.py lines 99-102):
`cancer_raw = vals.get(14, "")`, strip+capitalize when truthy else
`"Unknown"`, then anything outside `{"Yes", "No"}` becomes `"Unknown"`. -/
def cancerOfCell (o : Option CellValue) : String :=
  cancerGuard (cancerNorm (o.getD (.str "")))

/-- `pd.to_datetime(date, errors="coerce")` restricted to the cell shapes the
claims exercise: a datetime cell passes through, an absent cell is NaT.
String and numeric date cells (pandas would attempt parsing, resp. interpret
an epoch offset) are modelled as NaT; no claim involves them. -/
def toDatetimeCoerce : Option CellValue → Option Dt
  | some (.date d) => some d
  | _ => none

/-- The service-unit columns E(5) through L(12) (app.py line 71). -/
def serviceColNums : List Nat := [5, 6, 7, 8, 9, 10, 11, 12]

/-- One normalized record, as appended by `load_data` (app.py lines 104-111).
The service-unit values are kept positionally (in `load_data` they are keyed
by the header names of columns 5-12, which are fixed labels). -/
structure Rec where
  name : Option CellValue
  date : Option Dt
  status : CellValue
  cost : ℚ
  cancer : String
  svc : List ℚ
deriving DecidableEq

/-- Field normalization of one raw row (app.py lines 86-111). -/
def normalizeRow (row : Row) : Rec :=
  { name := getCell row 1
    date := toDatetimeCoerce (getCell row 2)
    status := statusOfCell (getCell row 3)
    cost := costOfCell (getCell row 4)
    cancer := cancerOfCell (getCell row 14)
    svc := serviceColNums.map (fun c => svcOfCell (getCell row c)) }

/-- The all-cells-empty test of app.py line 83. -/
def rowEmpty (row : Row) : Bool := row.all (fun o => o.isNone)

/-- The record-building loop of `load_data` (app.py lines 81-111): skip rows
whose every cell is `None`, append one normalized record per other row. -/
def loadRecords (rows : List Row) : List Rec :=
  rows.foldl (fun acc row => if rowEmpty row then acc else acc ++ [normalizeRow row]) []

/-- `Month_Year` (app.py line 114): the (year, month) period of the required
date, absent for records without a date. -/
def Rec.month (r : Rec) : Option (Int × Nat) := r.date.map (fun d => (d.year, d.month))

/-- The boolean mask of app.py lines 199-202:
`df["Status"].isin(status_filter) & df["Requester_Name"].isin(requester_filter)`.
A record with an absent (NaN) requester name matches no selection list drawn
from `all_requesters`, mirroring pandas `isin` on NaN. -/
def keepRecord (statusSel reqSel : List CellValue) (r : Rec) : Bool :=
  decide (r.status ∈ statusSel) &&
    (match r.name with
     | some n => decide (n ∈ reqSel)
     | none => false)

/-- `df_filtered` (app.py lines 199-202) as a function of the two selection
lists and the table. -/
def df_filtered (statusSel reqSel : List CellValue) (recs : List Rec) : List Rec :=
  recs.filter (keepRecord statusSel reqSel)

/-- `status_options` (app.py line 164): the distinct statuses observed in the
table.  The source also sorts them for display; only membership reaches the
filter mask. -/
def status_options (recs : List Rec) : List CellValue := (recs.map Rec.status).dedup

/-- `all_requesters` (app.py line 153): the distinct non-null requester names.
`dropna()` discards absent names; sorting is display-only. -/
def all_requesters (recs : List Rec) : List CellValue := (recs.filterMap Rec.name).dedup

/-- Ascending order on (year, month) periods. -/
def monthLe (a b : Int × Nat) : Bool := decide (a.1 < b.1 ∨ (a.1 = b.1 ∧ a.2 ≤ b.2))

def insertMonth (m : Int × Nat) : List (Int × Nat) → List (Int × Nat)
  | [] => [m]
  | x :: xs => if monthLe m x then m :: x :: xs else x :: insertMonth m xs

def sortMonths (l : List (Int × Nat)) : List (Int × Nat) := l.foldr insertMonth []

/-- `cost_time` (app.py lines 359-365): group the table by month period
(records with an absent date are dropped, as pandas `groupby` drops NaT
keys), sum `Cost_Recovery` per bucket, sort ascending by period.  The
`Month_Year_Label` component of the source's group key is a function of the
period (strftime of the same date), so the period alone is the key. -/
def cost_time (recs : List Rec) : List ((Int × Nat) × ℚ) :=
  (sortMonths (recs.filterMap Rec.month).dedup).map
    (fun m => (m, ((recs.filter (fun r => decide (r.month = some m))).map Rec.cost).sum))

/-- A raw cell in the cost or service-unit positions whose represented value
is non-negative: a non-negative number, a date on/after the 1899-12-30 epoch,
or any non-numeric cell (which normalizes to the default `0.0`). -/
def cellNonNeg : Option CellValue → Bool
  | some (.int n) => decide (0 ≤ n)
  | some (.float q) => decide (0 ≤ q)
  | some (.date d) => decide (toOrdinal excelEpoch ≤ toOrdinal d)
  | _ => true

/-- A raw row whose requester cell is empty: its record survives no
status/requester filter, however the selections are chosen. -/
def rowNoName : Row := [none, none, some (.str "Completed"), some (.int 100)]

def recNoName : Rec := normalizeRow rowNoName

/-- A raw row with a named requester, used to instantiate the filter
identity. -/
def rowNamed : Row := [some (.str "A"), none, some (.str "Completed"), some (.int 100)]

def recNamed : Rec := normalizeRow rowNamed

/-- Record dated 2025-04-01 with cost 100 (monthly-trend scenario). -/
def recApr100 : Rec :=
  { name := some (.str "A"), date := some ⟨2025, 4, 1⟩, status := .str "Completed",
    cost := 100, cancer := "Unknown", svc := [] }

/-- Record dated 2025-04-15 with cost 50 (monthly-trend scenario). -/
def recApr50 : Rec :=
  { name := some (.str "B"), date := some ⟨2025, 4, 15⟩, status := .str "Pending",
    cost := 50, cancer := "Unknown", svc := [] }

/-- Record with an absent required date (monthly-trend scenario). -/
def recNoDate : Rec :=
  { name := some (.str "C"), date := none, status := .str "Pending",
    cost := 30, cancer := "Unknown", svc := [] }

/-! ### Helper lemmas -/

theorem costOfCell_int (n : Int) : costOfCell (some (.int n)) = (n : ℚ) := by
  by_cases h : n = 0 <;> simp [costOfCell, isTruthy, toFloatIfNum, h]

theorem costOfCell_float (q : ℚ) : costOfCell (some (.float q)) = q := by
  by_cases h : q = 0 <;> simp [costOfCell, isTruthy, toFloatIfNum, h]

theorem costOfCell_str (s : String) : costOfCell (some (.str s)) = 0 := by
  by_cases h : s = "" <;> simp [costOfCell, isTruthy, toFloatIfNum, h]

theorem svcOfCell_str (s : String) : svcOfCell (some (.str s)) = 0 := by
  simp [svcOfCell, excel_date_to_int, toFloatIfNum]

theorem svcOfCell_date (d : Dt) :
    svcOfCell (some (.date d)) = ((toOrdinal d - toOrdinal excelEpoch : Int) : ℚ) := by
  simp [svcOfCell, excel_date_to_int, toFloatIfNum]

theorem costOfCell_nonneg (o : Option CellValue) (h : cellNonNeg o = true) :
    0 ≤ costOfCell o := by
  match o with
  | none => simp [costOfCell, isTruthy, toFloatIfNum]
  | some (.str s) => simp [costOfCell_str]
  | some (.bool b) =>
    cases b <;> simp [costOfCell, isTruthy, toFloatIfNum]
  | some (.date d) => simp [costOfCell, isTruthy, toFloatIfNum]
  | some (.int n) =>
    simp only [cellNonNeg, decide_eq_true_eq] at h
    rw [costOfCell_int]
    exact_mod_cast h
  | some (.float q) =>
    simp only [cellNonNeg, decide_eq_true_eq] at h
    rw [costOfCell_float]
    exact h

theorem svcOfCell_nonneg (o : Option CellValue) (h : cellNonNeg o = true) :
    0 ≤ svcOfCell o := by
  match o with
  | none => simp [svcOfCell]
  | some (.str s) => simp [svcOfCell_str]
  | some (.bool b) =>
    cases b <;> simp [svcOfCell, excel_date_to_int, toFloatIfNum]
  | some (.date d) =>
    simp only [cellNonNeg, decide_eq_true_eq] at h
    rw [svcOfCell_date]
    have h2 : (0 : Int) ≤ toOrdinal d - toOrdinal excelEpoch := by omega
    exact_mod_cast h2
  | some (.int n) =>
    simp only [cellNonNeg, decide_eq_true_eq] at h
    simp [svcOfCell, excel_date_to_int, toFloatIfNum]
    exact_mod_cast h
  | some (.float q) =>
    simp only [cellNonNeg, decide_eq_true_eq] at h
    simp [svcOfCell, excel_date_to_int, toFloatIfNum]
    exact h

theorem statusOfCell_ne_empty (o : Option CellValue) : statusOfCell o ≠ .str "" := by
  cases o with
  | none => simp [statusOfCell]
  | some v =>
    simp only [statusOfCell]
    split
    · next h =>
      intro heq
      rw [heq] at h
      simp [isTruthy] at h
    · simp

theorem cancerGuard_mem (v : String) :
    cancerGuard v = "Yes" ∨ cancerGuard v = "No" ∨ cancerGuard v = "Unknown" := by
  unfold cancerGuard
  split
  · next h =>
    simp only [Bool.or_eq_true, beq_iff_eq] at h
    exact h.imp (fun h2 => h2) (fun h2 => Or.inl h2)
  · right; right; rfl

theorem cancerOfCell_mem (o : Option CellValue) :
    cancerOfCell o = "Yes" ∨ cancerOfCell o = "No" ∨ cancerOfCell o = "Unknown" :=
  cancerGuard_mem (cancerNorm (o.getD (.str "")))

theorem loadRecords_foldl (rows : List Row) (acc : List Rec) :
    rows.foldl (fun acc row => if rowEmpty row then acc else acc ++ [normalizeRow row]) acc
      = acc ++ (rows.filter (fun r => !rowEmpty r)).map normalizeRow := by
  induction rows generalizing acc with
  | nil => simp
  | cons r rs ih =>
    cases h : rowEmpty r <;> simp [List.filter_cons, h, ih]

theorem cost_time_cons_none (recs : List Rec) (r : Rec) (h : Rec.month r = none) :
    cost_time (r :: recs) = cost_time recs := by
  unfold cost_time
  simp [List.filterMap_cons, List.filter_cons, h]

/-! ### Claims -/

/-- Claim C1 (corrected), counterexample: a table holding one record whose
requester cell was empty is not returned whole by the filter even when both
selections are full — `all_requesters` drops null names, and the `isin` mask
rejects a null name against any selection, so the record is dropped. -/
theorem full_selection_drops_null_requester :
    df_filtered (status_options [recNoName]) (all_requesters [recNoName]) [recNoName]
      ≠ [recNoName] := by decide

/-- Claim C1 (amended): when every record of the table has a present (non-null)
requester name, filtering with the full set of observed statuses and the full
set of observed requesters returns the entire table, in the original order. -/
theorem filter_full_selection_identity (recs : List Rec)
    (h : ∀ r ∈ recs, (Rec.name r).isSome) :
    df_filtered (status_options recs) (all_requesters recs) recs = recs := by
  unfold df_filtered
  rw [List.filter_eq_self]
  intro r hr
  obtain ⟨n, hn⟩ := Option.isSome_iff_exists.mp (h r hr)
  unfold keepRecord status_options all_requesters
  rw [hn]
  simp only [Bool.and_eq_true, decide_eq_true_eq]
  exact ⟨List.mem_dedup.mpr (List.mem_map_of_mem _ hr),
         List.mem_dedup.mpr (List.mem_filterMap.mpr ⟨r, hr, hn⟩)⟩

/-- Witness for the amended C1 at a concrete one-record table with a named
requester. -/
theorem filter_full_selection_identity_witness :
    (∀ r ∈ [recNamed], (Rec.name r).isSome) ∧
      df_filtered (status_options [recNamed]) (all_requesters [recNamed]) [recNamed]
        = [recNamed] :=
  ⟨by decide, filter_full_selection_identity [recNamed] (by decide)⟩

/-- Claim C2 (corrected), counterexample: the date 1900-05-01 in a service-unit
cell does not normalize to 121 (it is 122 days after 1899-12-30). -/
theorem date_serial_not_121 :
    svcOfCell (some (.date ⟨1900, 5, 1⟩)) ≠ (121 : ℚ) := by decide

/-- Claim C2 (amended): a service-unit cell holding a date normalizes to the
integer day offset from the epoch 1899-12-30; in particular 1900-05-01
normalizes to 122, and a plain numeric 7 normalizes to 7.0. -/
theorem date_serial_conversion :
    (∀ d : Dt, svcOfCell (some (.date d))
        = ((toOrdinal d - toOrdinal excelEpoch : Int) : ℚ)) ∧
      svcOfCell (some (.date ⟨1900, 5, 1⟩)) = 122 ∧
      svcOfCell (some (.int 7)) = 7 :=
  ⟨fun d => svcOfCell_date d, by decide, by decide⟩

/-- Claim C3 (corrected), counterexample: a cost cell holding the numeric
string "5" normalizes to 0.0, not 5.0 — `load_data` never attempts
string-to-number parsing (`float(cost) if isinstance(cost, (int, float))
else 0.0`). -/
theorem cost_numeric_string_not_parsed :
    costOfCell (some (.str "5")) ≠ (5 : ℚ) := by decide

/-- Claim C3 (amended): a numeric cost cell is accepted directly; every
string cost cell — numeric strings included — defaults to 0.0 without any
parsing attempt; string service-unit cells likewise default to 0.0; the
normalization is total (never raises). -/
theorem cost_and_svc_string_default :
    (∀ n : Int, costOfCell (some (.int n)) = (n : ℚ)) ∧
      (∀ q : ℚ, costOfCell (some (.float q)) = q) ∧
      (∀ s : String, costOfCell (some (.str s)) = 0) ∧
      (∀ s : String, svcOfCell (some (.str s)) = 0) :=
  ⟨costOfCell_int, costOfCell_float, costOfCell_str, svcOfCell_str⟩

/-- Claim C4 (corrected), counterexample: a row whose cost cell holds -5
produces a record with negative `cost_recovery` — `load_data` does not clamp
numeric values. -/
theorem negative_cost_cell_stays_negative :
    (normalizeRow [none, none, none, some (.int (-5))]).cost < 0 := by decide

/-- Claim C4 (amended): `cost_recovery` and every `service_units` entry are
well-defined rationals (finite by construction), and they are non-negative
whenever each source cell in the cost and service positions represents a
non-negative value (non-negative number, or date on/after 1899-12-30, or
non-numeric). -/
theorem normalized_amounts_nonneg (row : Row)
    (h4 : cellNonNeg (getCell row 4) = true)
    (hsvc : ∀ c ∈ serviceColNums, cellNonNeg (getCell row c) = true) :
    0 ≤ (normalizeRow row).cost ∧ ∀ q ∈ (normalizeRow row).svc, 0 ≤ q := by
  refine ⟨costOfCell_nonneg _ h4, ?_⟩
  intro q hq
  simp only [normalizeRow, List.mem_map] at hq
  obtain ⟨c, hc, rfl⟩ := hq
  exact svcOfCell_nonneg _ (hsvc c hc)

/-- Witness for the amended C4 at a concrete row (numeric cost 3, one
date-valued and one numeric service cell). -/
theorem normalized_amounts_nonneg_witness :
    (cellNonNeg (getCell [some (.str "A"), none, none, some (.int 3),
        some (.date ⟨1900, 5, 1⟩), some (.float 2)] 4) = true) ∧
      (∀ c ∈ serviceColNums, cellNonNeg (getCell [some (.str "A"), none, none,
        some (.int 3), some (.date ⟨1900, 5, 1⟩), some (.float 2)] c) = true) ∧
      (0 ≤ (normalizeRow [some (.str "A"), none, none, some (.int 3),
        some (.date ⟨1900, 5, 1⟩), some (.float 2)]).cost ∧
        ∀ q ∈ (normalizeRow [some (.str "A"), none, none, some (.int 3),
          some (.date ⟨1900, 5, 1⟩), some (.float 2)]).svc, 0 ≤ q) :=
  ⟨by decide, by decide,
    normalized_amounts_nonneg
      [some (.str "A"), none, none, some (.int 3), some (.date ⟨1900, 5, 1⟩),
        some (.float 2)] (by decide) (by decide)⟩

/-- Claim C5: the cancer-flag inputs "yes", "YES", " Yes " all normalize to
"Yes"; "", absent, and "Maybe" all normalize to "Unknown"; and for every
cell value whatsoever the normalized flag is one of "Yes", "No", "Unknown". -/
theorem cancer_flag_normalization :
    cancerOfCell (some (.str "yes")) = "Yes" ∧
      cancerOfCell (some (.str "YES")) = "Yes" ∧
      cancerOfCell (some (.str " Yes ")) = "Yes" ∧
      cancerOfCell (some (.str "")) = "Unknown" ∧
      cancerOfCell none = "Unknown" ∧
      cancerOfCell (some (.str "Maybe")) = "Unknown" ∧
      ∀ o : Option CellValue,
        cancerOfCell o = "Yes" ∨ cancerOfCell o = "No" ∨ cancerOfCell o = "Unknown" :=
  ⟨by decide, by decide, by decide, by decide, by decide, by decide, cancerOfCell_mem⟩

/-- Claim C6: filtering with an empty selected status set yields zero records,
whatever the table and the selected requester set. -/
theorem empty_status_selection_yields_empty (reqSel : List CellValue)
    (recs : List Rec) : df_filtered [] reqSel recs = [] := by
  unfold df_filtered
  rw [List.filter_eq_nil_iff]
  intro r _
  simp [keepRecord]

/-- Claim C7: the record-building loop skips exactly the rows whose every
cell is empty, emits one record per remaining row in source order, and hence
outputs as many records as there are non-empty input rows. -/
theorem load_one_record_per_nonempty_row (rows : List Row) :
    loadRecords rows = (rows.filter (fun r => !rowEmpty r)).map normalizeRow ∧
      (loadRecords rows).length = (rows.filter (fun r => !rowEmpty r)).length := by
  have h := loadRecords_foldl rows []
  constructor
  · rw [loadRecords, h]
    simp
  · rw [loadRecords, h]
    simp

/-- Claim C8: the normalized status is never the empty string; an absent
status cell and an empty-string status cell both normalize to "Unknown". -/
theorem status_never_empty :
    statusOfCell none = .str "Unknown" ∧
      statusOfCell (some (.str "")) = .str "Unknown" ∧
      ∀ o : Option CellValue, statusOfCell o ≠ .str "" :=
  ⟨by decide, by decide, statusOfCell_ne_empty⟩

/-- Claim C9: the monthly cost trend groups by month period and sums
`cost_recovery` — two April-2025 records with costs 100 and 50 yield the
single bucket ((2025, 4), 150); a record with an absent date never affects
the view (it is dropped from the grouping) while remaining present in the
unfiltered table, whose aggregation is unchanged. -/
theorem monthly_cost_trend :
    cost_time [recApr100, recApr50] = [((2025, 4), 150)] ∧
      (∀ (recs : List Rec) (r : Rec), Rec.month r = none →
        cost_time (r :: recs) = cost_time recs) ∧
      recNoDate ∈ [recApr100, recApr50, recNoDate] ∧
      cost_time [recApr100, recApr50, recNoDate] = [((2025, 4), 150)] := by
  refine ⟨?_, fun recs r h => cost_time_cons_none recs r h,
    List.Mem.tail _ (List.Mem.tail _ (List.Mem.head _)), ?_⟩
  · have h : cost_time [recApr100, recApr50] = [((2025, 4), 100 + (50 + 0))] := rfl
    rw [h]
    norm_num
  · have h : cost_time [recApr100, recApr50, recNoDate]
        = [((2025, 4), 100 + (50 + 0))] := rfl
    rw [h]
    norm_num

/-- Witness for C9's no-date conjunct at a concrete record and table. -/
theorem monthly_cost_trend_witness :
    Rec.month recNoDate = none ∧
      cost_time (recNoDate :: [recApr100]) = cost_time [recApr100] :=
  ⟨by decide, monthly_cost_trend.2.1 [recApr100] recNoDate (by decide)⟩

/-- Claim C10: for every table and every pair of selections, the filtered
view is a subsequence of the table — it holds only records of the table,
each at most once, in the table's relative order (and, the embedding being
pure, the underlying records are untouched). -/
theorem filtered_view_is_subsequence (statusSel reqSel : List CellValue)
    (recs : List Rec) : (df_filtered statusSel reqSel recs).Sublist recs :=
  List.filter_sublist recs

end TPSR
